import Mathlib

/-!
Shallow embedding of the RBAC service in src/Rbac.rs.

The database state is a record of the three tables the handlers touch
(roles, permissions, tasks).  The recursive CTE in check_permission is
modelled step-for-step: the anchor member selects the rows of roles whose
id equals the queried role id, and each recursive step joins roles r on
r.id = rh.parent_id against the current working table (frontier).  A fuel
parameter bounds the number of iterations; `none` models a query that has
not terminated within the fuel (the CTE iterates until its working table
is empty, which on a cyclic parent graph never happens).

Handlers return `Option (Except StatusCode α × DB)`: `none` when the
permission query diverges, otherwise the HTTP outcome paired with the
database state after the handler ran.
-/

namespace Rbac

structure Role where
  id : Int
  name : String
  parent_id : Option Int
deriving DecidableEq

structure Permission where
  id : Int
  action : String
  role_id : Int
deriving DecidableEq

structure Task where
  id : Int
  title : String
  description : String
  owner_id : Int
deriving DecidableEq

structure CreateTask where
  title : String
  description : String
  owner_id : Int
deriving DecidableEq

structure DB where
  roles : List Role
  permissions : List Permission
  tasks : List Task
deriving DecidableEq

inductive StatusCode where
  | FORBIDDEN
  | INTERNAL_SERVER_ERROR
  | NO_CONTENT
deriving DecidableEq

/-- One recursive step of the CTE: `SELECT r.id, r.parent_id FROM roles r
INNER JOIN role_hierarchy rh ON r.id = rh.parent_id`, where `frontier` is
the working table produced by the previous iteration. -/
def cteStep (roles : List Role) (frontier : List Role) : List Role :=
  roles.filter (fun r => frontier.any (fun f => f.parent_id == some r.id))

/-- Iterate the recursive CTE until the working table is empty, returning
all accumulated rows; `none` when the fuel is exhausted with a nonempty
working table (the query has not terminated). -/
def cteRun (roles : List Role) : List Role → List Role → Nat → Option (List Role)
  | frontier, acc, 0 => if frontier.isEmpty then some acc else none
  | frontier, acc, n + 1 =>
      if frontier.isEmpty then some acc
      else cteRun roles (cteStep roles frontier) (acc ++ cteStep roles frontier) n

/-- The full `role_hierarchy` CTE of check_permission: anchor member
`SELECT id, parent_id FROM roles WHERE id = $1`, then the recursive part. -/
def role_hierarchy (db : DB) (roleId : Int) (fuel : Nat) : Option (List Role) :=
  cteRun db.roles (db.roles.filter (fun r => r.id == roleId))
    (db.roles.filter (fun r => r.id == roleId)) fuel

/-- check_permission (src/Rbac.rs lines 48-67): the outer query
`SELECT 1 FROM permissions p INNER JOIN role_hierarchy rh ON
p.role_id = rh.id WHERE p.action = $2 LIMIT 1` is nonempty iff some
permission row carries the requested action and targets a role of the
hierarchy; `fetch_optional(...).is_some()` yields that boolean. -/
def check_permission (db : DB) (roleId : Int) (action : String) (fuel : Nat) :
    Option Bool :=
  (role_hierarchy db roleId fuel).map (fun rh =>
    db.permissions.any (fun p => p.action == action && rh.any (fun r => r.id == p.role_id)))

/-- create_task (src/Rbac.rs lines 69-89): checks the permission for
`payload.owner_id` and action "create_task"; on denial returns FORBIDDEN
with the store untouched; otherwise inserts the task (the `newId` argument
stands for the serial id the database assigns) and returns the row. -/
def create_task (db : DB) (payload : CreateTask) (newId : Int) (fuel : Nat) :
    Option (Except StatusCode Task × DB) :=
  (check_permission db payload.owner_id "create_task" fuel).map (fun ok =>
    if ok then
      let task : Task := ⟨newId, payload.title, payload.description, payload.owner_id⟩
      (Except.ok task, { db with tasks := db.tasks ++ [task] })
    else (Except.error StatusCode.FORBIDDEN, db))

/-- The row transformation of the UPDATE statement in update_task:
`UPDATE tasks SET title = $1, description = $2 WHERE id = $3`. -/
def updTask (task_id : Int) (payload : CreateTask) (u : Task) : Task :=
  if u.id == task_id then
    { u with title := payload.title, description := payload.description }
  else u

/-- update_task (src/Rbac.rs lines 91-112): checks the permission for
`payload.owner_id` and action "edit_task"; on denial returns FORBIDDEN with
the store untouched; otherwise runs the UPDATE ... RETURNING and
`fetch_one`, which errors when no row matched — the handler maps that
error to INTERNAL_SERVER_ERROR. -/
def update_task (db : DB) (task_id : Int) (payload : CreateTask) (fuel : Nat) :
    Option (Except StatusCode Task × DB) :=
  (check_permission db payload.owner_id "edit_task" fuel).map (fun ok =>
    if ok then
      match db.tasks.find? (fun u => u.id == task_id) with
      | none => (Except.error StatusCode.INTERNAL_SERVER_ERROR, db)
      | some t => (Except.ok (updTask task_id payload t),
                   { db with tasks := db.tasks.map (updTask task_id payload) })
    else (Except.error StatusCode.FORBIDDEN, db))

/-- delete_task (src/Rbac.rs lines 114-129): checks the permission for
`user_id` and action "delete_task"; on denial returns FORBIDDEN with the
store untouched; otherwise runs `DELETE FROM tasks WHERE id = $1` (which
succeeds whether or not a row matches) and returns NO_CONTENT. -/
def delete_task (db : DB) (task_id : Int) (user_id : Int) (fuel : Nat) :
    Option (Except StatusCode StatusCode × DB) :=
  (check_permission db user_id "delete_task" fuel).map (fun ok =>
    if ok then
      (Except.ok StatusCode.NO_CONTENT,
       { db with tasks := db.tasks.filter (fun t => !(t.id == task_id)) })
    else (Except.error StatusCode.FORBIDDEN, db))

/-- A concrete bootstrap state used by witnesses: the admin/editor/viewer
chain of the spec scenarios, a grantless guest role, and two tasks. -/
def dbW : DB :=
  { roles := [⟨1, "admin", none⟩, ⟨2, "editor", some 1⟩, ⟨3, "viewer", some 2⟩,
              ⟨4, "guest", none⟩],
    permissions := [⟨1, "delete_task", 1⟩, ⟨2, "create_task", 1⟩, ⟨3, "edit_task", 1⟩],
    tasks := [⟨10, "t1", "d1", 7⟩, ⟨11, "t2", "d2", 3⟩] }

/-- The two-role cycle of the spec's cycle-detection scenario: role A's
parent is B and role B's parent is A. -/
def dbCyc : DB := ⟨[⟨1, "A", some 2⟩, ⟨2, "B", some 1⟩], [], []⟩

/-- The ancestor-chain query terminates for this role at some fuel. -/
def chainResolves (db : DB) (r : Int) : Prop :=
  ∃ fuel, (role_hierarchy db r fuel).isSome = true

/-- A linear chain of 70 roles: role i's parent is role i+1, role 69 is
the root — deeper than the depth bound of 64 the spec prescribes. -/
def deepRoles : List Role :=
  (List.range 70).map (fun i => ⟨(i : Int), "", if i = 69 then none else some ((i : Int) + 1)⟩)

/-- Database with the 70-role chain and a single grant at the root. -/
def dbDeep : DB := ⟨deepRoles, [⟨1, "delete_task", 69⟩], []⟩

/-! Sanity checks of the embedding on the spec's bootstrap scenarios. -/

example : check_permission dbW 3 "delete_task" 5 = some true := by decide
example : check_permission dbW 3 "publish" 5 = some false := by decide
example : check_permission dbW 4 "create_task" 5 = some false := by decide
example : check_permission dbW 42 "create_task" 5 = some false := by decide
example : role_hierarchy dbW 3 5 =
    some [⟨3, "viewer", some 2⟩, ⟨2, "editor", some 1⟩, ⟨1, "admin", none⟩] := by decide

/-! Helper lemmas shared by the claim theorems. -/

/-- On the cyclic graph the working table of the CTE alternates forever
between the two roles of the cycle, so the query never terminates. -/
theorem cteRun_dbCyc_none (fuel : Nat) :
    ∀ frontier acc, (frontier = [⟨1, "A", some 2⟩] ∨ frontier = [⟨2, "B", some 1⟩]) →
      cteRun dbCyc.roles frontier acc fuel = none := by
  induction fuel with
  | zero =>
      intro frontier acc h
      rcases h with h | h <;> subst h <;> rfl
  | succ n ih =>
      intro frontier acc h
      rcases h with h | h <;> subst h
      · show cteRun dbCyc.roles [⟨2, "B", some 1⟩] (_ ++ [⟨2, "B", some 1⟩]) n = none
        exact ih _ _ (Or.inr rfl)
      · show cteRun dbCyc.roles [⟨1, "A", some 2⟩] (_ ++ [⟨1, "A", some 2⟩]) n = none
        exact ih _ _ (Or.inl rfl)

/-- Ancestor-chain resolution on the cycle diverges at every fuel. -/
theorem role_hierarchy_dbCyc (fuel : Nat) : role_hierarchy dbCyc 1 fuel = none := by
  show cteRun dbCyc.roles [⟨1, "A", some 2⟩] [⟨1, "A", some 2⟩] fuel = none
  exact cteRun_dbCyc_none fuel _ _ (Or.inl rfl)

/-- With an empty working table the CTE finishes immediately. -/
theorem cteRun_nil (roles : List Role) (acc : List Role) (fuel : Nat) :
    cteRun roles [] acc fuel = some acc := by
  cases fuel <;> rfl

/-- Rows not matching the UPDATE's WHERE clause are left unchanged. -/
theorem map_updTask_eq_self (tid : Int) (p : CreateTask) (l : List Task)
    (h : ∀ u ∈ l, u.id ≠ tid) : l.map (updTask tid p) = l := by
  induction l with
  | nil => rfl
  | cons x xs ih =>
      have hx : x.id ≠ tid := h x (List.mem_cons_self x xs)
      simp only [List.map_cons]
      rw [ih (fun u hu => h u (List.mem_cons_of_mem x hu))]
      simp [updTask, hx]

/-! Claim theorems. -/

/-- Claim C1: for each of create_task, update_task and delete_task, when the
authorization check for the acting role returns false the handler fails with
FORBIDDEN and the database state is returned unchanged — the persistence
statement is only reached after the check succeeds. -/
theorem claim_C1 (db : DB) (p : CreateTask) (nid tid uid : Int) (fuel : Nat) :
    (check_permission db p.owner_id "create_task" fuel = some false →
      create_task db p nid fuel = some (Except.error StatusCode.FORBIDDEN, db)) ∧
    (check_permission db p.owner_id "edit_task" fuel = some false →
      update_task db tid p fuel = some (Except.error StatusCode.FORBIDDEN, db)) ∧
    (check_permission db uid "delete_task" fuel = some false →
      delete_task db tid uid fuel = some (Except.error StatusCode.FORBIDDEN, db)) := by
  refine ⟨fun hc => ?_, fun he => ?_, fun hd => ?_⟩
  · simp [create_task, hc]
  · simp [update_task, he]
  · simp [delete_task, hd]

/-- Witness for C1: the grantless guest role (id 4) is denied all three
operations on the bootstrap state, which is left unchanged. -/
theorem claim_C1_witness :
    create_task dbW ⟨"x", "y", 4⟩ 99 5 = some (Except.error StatusCode.FORBIDDEN, dbW) ∧
    update_task dbW 10 ⟨"x", "y", 4⟩ 5 = some (Except.error StatusCode.FORBIDDEN, dbW) ∧
    delete_task dbW 10 4 5 = some (Except.error StatusCode.FORBIDDEN, dbW) :=
  ⟨(claim_C1 dbW ⟨"x", "y", 4⟩ 99 10 4 5).1 (by decide),
   (claim_C1 dbW ⟨"x", "y", 4⟩ 99 10 4 5).2.1 (by decide),
   (claim_C1 dbW ⟨"x", "y", 4⟩ 99 10 4 5).2.2 (by decide)⟩

/-- Claim C2: transitivity of grants — if the ancestor chain of role r
resolves and some role of the chain carries a direct grant of the action,
check_permission returns true. -/
theorem claim_C2 (db : DB) (r : Int) (a : String) (fuel : Nat) (rh : List Role)
    (ro : Role) (p : Permission)
    (hchain : role_hierarchy db r fuel = some rh) (hro : ro ∈ rh)
    (hp : p ∈ db.permissions) (ha : p.action = a) (hr : p.role_id = ro.id) :
    check_permission db r a fuel = some true := by
  have h2 : rh.any (fun x => x.id == p.role_id) = true :=
    List.any_eq_true.mpr ⟨ro, hro, by simp [hr]⟩
  have h1 : db.permissions.any
      (fun q => q.action == a && rh.any (fun x => x.id == q.role_id)) = true :=
    List.any_eq_true.mpr ⟨p, hp, by simp [ha, h2]⟩
  simp [check_permission, hchain, h1]

/-- Witness for C2: the grant of delete_task to admin authorizes viewer,
two levels below, on the bootstrap state. -/
theorem claim_C2_witness : check_permission dbW 3 "delete_task" 5 = some true :=
  claim_C2 dbW 3 "delete_task" 5
    [⟨3, "viewer", some 2⟩, ⟨2, "editor", some 1⟩, ⟨1, "admin", none⟩]
    ⟨1, "admin", none⟩ ⟨1, "delete_task", 1⟩ (by decide) (by decide) (by decide) rfl rfl

/-- Counterexample for C4: on the cyclic graph A→B→A the ancestor-chain
query never terminates at any fuel — it does not terminate with a
CyclicHierarchy error as the claim states (no such error exists in the
code). -/
theorem claim_C4_cex : ¬ chainResolves dbCyc 1 := by
  rintro ⟨fuel, h⟩
  rw [role_hierarchy_dbCyc fuel] at h
  simp at h

/-- Claim C4 (amended): on a cyclic role graph ancestor-chain resolution
diverges — for every fuel the recursive CTE's working table is still
nonempty, so check_permission never returns a decision; the code has no
CyclicHierarchy error. -/
theorem claim_C4 (fuel : Nat) (a : String) :
    role_hierarchy dbCyc 1 fuel = none ∧ check_permission dbCyc 1 a fuel = none := by
  refine ⟨role_hierarchy_dbCyc fuel, ?_⟩
  simp [check_permission, role_hierarchy_dbCyc fuel]

/-- Counterexample for C5: for a role id absent from the store the code
returns the boolean false — it does not fail with an UnknownRole error as
the claim states (no such error exists in the code). -/
theorem claim_C5_cex : check_permission dbW 42 "create_task" 5 = some false := by decide

/-- Claim C5 (amended): for any role id with no role record the anchor of
the CTE is empty, the hierarchy is the empty set of roles, and
check_permission returns false for every action — indistinguishable from a
normal deny. -/
theorem claim_C5 (db : DB) (r : Int) (a : String) (fuel : Nat)
    (h : ∀ ro ∈ db.roles, ro.id ≠ r) :
    check_permission db r a fuel = some false := by
  have hanchor : db.roles.filter (fun ro => ro.id == r) = [] := by
    rw [List.filter_eq_nil_iff]
    intro ro hro
    simp [h ro hro]
  simp [check_permission, role_hierarchy, hanchor, cteRun_nil]

/-- Witness for C5: the nonexistent role id 42 is denied edit_task on the
bootstrap state. -/
theorem claim_C5_witness : check_permission dbW 42 "edit_task" 5 = some false :=
  claim_C5 dbW 42 "edit_task" 5 (by decide)

/-- Claim C3: soundness of the permission check — it returns true only
when some role of the resolved ancestor chain carries a direct grant of
the action; when no role of the chain does, it returns false and
create_task with that acting role fails with FORBIDDEN leaving the store
unchanged. -/
theorem claim_C3 (db : DB) (r : Int) (a : String) (fuel : Nat) (rh : List Role)
    (hchain : role_hierarchy db r fuel = some rh) :
    (check_permission db r a fuel = some true →
      ∃ ro ∈ rh, ∃ p ∈ db.permissions, p.action = a ∧ p.role_id = ro.id) ∧
    ((∀ ro ∈ rh, ∀ p ∈ db.permissions, ¬(p.action = a ∧ p.role_id = ro.id)) →
      check_permission db r a fuel = some false ∧
      ∀ payload : CreateTask, ∀ nid : Int, payload.owner_id = r → a = "create_task" →
        create_task db payload nid fuel = some (Except.error StatusCode.FORBIDDEN, db)) := by
  have hcp : check_permission db r a fuel =
      some (db.permissions.any
        (fun p => p.action == a && rh.any (fun x => x.id == p.role_id))) := by
    simp [check_permission, hchain]
  constructor
  · intro htrue
    rw [hcp] at htrue
    obtain ⟨p, hp, hpred⟩ := List.any_eq_true.mp (Option.some.inj htrue)
    rw [Bool.and_eq_true] at hpred
    obtain ⟨ro, hro, hid⟩ := List.any_eq_true.mp hpred.2
    exact ⟨ro, hro, p, hp, beq_iff_eq.mp hpred.1, (beq_iff_eq.mp hid).symm⟩
  · intro hno
    have hfalse : db.permissions.any
        (fun p => p.action == a && rh.any (fun x => x.id == p.role_id)) = false := by
      rw [Bool.eq_false_iff]
      intro hq
      obtain ⟨p, hp, hpred⟩ := List.any_eq_true.mp hq
      rw [Bool.and_eq_true] at hpred
      obtain ⟨ro, hro, hid⟩ := List.any_eq_true.mp hpred.2
      exact hno ro hro p hp ⟨beq_iff_eq.mp hpred.1, (beq_iff_eq.mp hid).symm⟩
    refine ⟨by rw [hcp, hfalse], ?_⟩
    intro payload nid hpay hact
    subst hpay
    subst hact
    simp [create_task, hcp, hfalse]

/-- Witness for C3: the guest role's chain is just itself, no permission
targets it, so the check is false and create_task is FORBIDDEN with the
bootstrap state unchanged. -/
theorem claim_C3_witness :
    check_permission dbW 4 "create_task" 5 = some false ∧
    create_task dbW ⟨"x", "y", 4⟩ 99 5 = some (Except.error StatusCode.FORBIDDEN, dbW) := by
  have h := (claim_C3 dbW 4 "create_task" 5 [⟨4, "guest", none⟩] (by decide)).2 (by decide)
  exact ⟨h.1, h.2 ⟨"x", "y", 4⟩ 99 rfl rfl⟩

/-- Counterexample for C6: the 70-role chain exceeds the claimed depth
bound of 64, yet check_permission resolves it fully and returns the
normal decision true — it does not fail with a HierarchyTooDeep error as
the claim states (no such error and no depth bound exist in the code). -/
theorem claim_C6_cex : check_permission dbDeep 0 "delete_task" 80 = some true := by decide

/-- Claim C6 (amended): the code imposes no depth bound — the 70-role
chain resolves completely (all 70 roles are produced) and the check
returns an ordinary boolean decision rather than any structural error. -/
theorem claim_C6 :
    (role_hierarchy dbDeep 0 80).map List.length = some 70 ∧
    check_permission dbDeep 0 "delete_task" 80 = some true := by decide

/-- Counterexample for C7: on the bootstrap state, task id 99 does not
exist and role 1 is authorized, yet update_task fails with
INTERNAL_SERVER_ERROR (not NotFound) and delete_task silently succeeds
with NO_CONTENT — contradicting the claim that both fail with NotFound. -/
theorem claim_C7_cex :
    update_task dbW 99 ⟨"t", "d", 1⟩ 5 =
      some (Except.error StatusCode.INTERNAL_SERVER_ERROR, dbW) ∧
    delete_task dbW 99 1 5 = some (Except.ok StatusCode.NO_CONTENT, dbW) := ⟨rfl, rfl⟩

/-- Claim C7 (amended): for a resource id absent from the store and an
authorized acting role, update_task fails with INTERNAL_SERVER_ERROR (the
persistence row-not-found is mapped to 500, not passed through as
NotFound) leaving the store unchanged, and delete_task returns NO_CONTENT
success leaving the store unchanged — neither surfaces a NotFound error. -/
theorem claim_C7 (db : DB) (tid : Int) (p : CreateTask) (uid : Int) (fuel : Nat)
    (hup : check_permission db p.owner_id "edit_task" fuel = some true)
    (hdp : check_permission db uid "delete_task" fuel = some true)
    (habs : ∀ t ∈ db.tasks, t.id ≠ tid) :
    update_task db tid p fuel = some (Except.error StatusCode.INTERNAL_SERVER_ERROR, db) ∧
    delete_task db tid uid fuel = some (Except.ok StatusCode.NO_CONTENT, db) := by
  have hfind : db.tasks.find? (fun u => u.id == tid) = none := by
    rw [List.find?_eq_none]
    intro t ht
    simp [habs t ht]
  have hfilter : db.tasks.filter (fun t => !(t.id == tid)) = db.tasks :=
    List.filter_eq_self.mpr (fun t ht => by simp [habs t ht])
  constructor
  · simp [update_task, hup, hfind]
  · simp [delete_task, hdp, hfilter]

/-- Witness for C7: task id 55 is absent from the bootstrap state and role
1 holds both grants; the update is a 500 and the delete a silent 204. -/
theorem claim_C7_witness :
    update_task dbW 55 ⟨"q", "r", 1⟩ 5 =
      some (Except.error StatusCode.INTERNAL_SERVER_ERROR, dbW) ∧
    delete_task dbW 55 1 5 = some (Except.ok StatusCode.NO_CONTENT, dbW) :=
  claim_C7 dbW 55 ⟨"q", "r", 1⟩ 1 5 (by decide) (by decide) (by decide)

/-- Claim C8: when the check for payload.owner_id succeeds, create_task
returns the created task whose owner_id field equals payload.owner_id —
the very identifier used for the authorization check. -/
theorem claim_C8 (db : DB) (p : CreateTask) (nid : Int) (fuel : Nat)
    (h : check_permission db p.owner_id "create_task" fuel = some true) :
    create_task db p nid fuel =
      some (Except.ok (⟨nid, p.title, p.description, p.owner_id⟩ : Task),
            { db with tasks := db.tasks ++ [⟨nid, p.title, p.description, p.owner_id⟩] }) ∧
    (⟨nid, p.title, p.description, p.owner_id⟩ : Task).owner_id = p.owner_id := by
  exact ⟨by simp [create_task, h], rfl⟩

/-- Witness for C8: role 1 (admin) is authorized to create and the created
task's owner is 1. -/
theorem claim_C8_witness :
    create_task dbW ⟨"a", "b", 1⟩ 12 5 =
      some (Except.ok (⟨12, "a", "b", 1⟩ : Task),
            { dbW with tasks := dbW.tasks ++ [⟨12, "a", "b", 1⟩] }) ∧
    (⟨12, "a", "b", 1⟩ : Task).owner_id = (1 : Int) :=
  claim_C8 dbW ⟨"a", "b", 1⟩ 12 5 (by decide)

/-- Claim C9: an authorized update of an existing task rewrites exactly
the title and description of the rows matching the id — every row keeps
its id and owner_id, and rows with a different id are unchanged. -/
theorem claim_C9 (db : DB) (tid : Int) (p : CreateTask) (fuel : Nat) (t : Task)
    (hperm : check_permission db p.owner_id "edit_task" fuel = some true)
    (hfind : db.tasks.find? (fun u => u.id == tid) = some t) :
    update_task db tid p fuel =
      some (Except.ok (updTask tid p t),
            { db with tasks := db.tasks.map (updTask tid p) }) ∧
    (∀ u : Task, (updTask tid p u).id = u.id ∧ (updTask tid p u).owner_id = u.owner_id ∧
      (u.id ≠ tid → updTask tid p u = u)) := by
  constructor
  · simp [update_task, hperm, hfind]
  · intro u
    by_cases h : u.id = tid
    · simp [updTask, h]
    · simp [updTask, h]

/-- Witness for C9: an authorized update of task 10 on the bootstrap
state, with the other task (id 11) left exactly as it was. -/
theorem claim_C9_witness :
    update_task dbW 10 ⟨"n", "m", 1⟩ 5 =
      some (Except.ok (updTask 10 ⟨"n", "m", 1⟩ ⟨10, "t1", "d1", 7⟩),
            { dbW with tasks := dbW.tasks.map (updTask 10 ⟨"n", "m", 1⟩) }) ∧
    updTask 10 ⟨"n", "m", 1⟩ ⟨11, "t2", "d2", 3⟩ = ⟨11, "t2", "d2", 3⟩ := by
  have h := claim_C9 dbW 10 ⟨"n", "m", 1⟩ 5 ⟨10, "t1", "d1", 7⟩ (by decide) (by decide)
  exact ⟨h.1, (h.2 ⟨11, "t2", "d2", 3⟩).2.2 (by decide)⟩

/-- Claim C10: the delete decision reads only the acting role id and the
action — an authorized acting role deletes a task whose owner differs from
it, and check_permission is invariant under any change to the tasks table,
so no ownership comparison can influence it. -/
theorem claim_C10 (db : DB) (tid uid : Int) (fuel : Nat) (t : Task)
    (hperm : check_permission db uid "delete_task" fuel = some true)
    (_ht : t ∈ db.tasks) (htid : t.id = tid) (_howner : t.owner_id ≠ uid) :
    delete_task db tid uid fuel =
      some (Except.ok StatusCode.NO_CONTENT,
            { db with tasks := db.tasks.filter (fun u => !(u.id == tid)) }) ∧
    t ∉ db.tasks.filter (fun u => !(u.id == tid)) ∧
    (∀ ts : List Task, check_permission { db with tasks := ts } uid "delete_task" fuel =
      check_permission db uid "delete_task" fuel) := by
  refine ⟨by simp [delete_task, hperm], ?_, fun ts => rfl⟩
  intro hmem
  rw [List.mem_filter] at hmem
  simp [htid] at hmem

/-- Witness for C10: role 1 (admin) deletes task 10 owned by 7 on the
bootstrap state; the deleted task is gone from the resulting store. -/
theorem claim_C10_witness :
    delete_task dbW 10 1 5 =
      some (Except.ok StatusCode.NO_CONTENT,
            { dbW with tasks := dbW.tasks.filter (fun u => !(u.id == (10 : Int))) }) ∧
    (⟨10, "t1", "d1", 7⟩ : Task) ∉ dbW.tasks.filter (fun u => !(u.id == (10 : Int))) := by
  have h := claim_C10 dbW 10 1 5 ⟨10, "t1", "d1", 7⟩ (by decide) (by decide) rfl (by decide)
  exact ⟨h.1, h.2.1⟩

end Rbac
